import Mathlib

/-!
Shallow embedding of the `superfork` repository's retry/backoff layer and
fork/sync orchestrator, together with proofs of its specified properties.

Sources embedded:
  * `src/superfork/utils.py` — `sleep`, `graceful_calling`
  * `src/repo_fork/fork.py`  — `maybe_sleep`
  * `src/superfork/fork.py`  — `fork_or_sync`, `filter_repos`

Machine time is modelled as an integer number of seconds (`now`); external
effects (waits, remote calls) are recorded in explicit event traces.
-/

namespace Superfork

/-- An observable wait of a given number of seconds (the only effect of
`sleep` that the properties mention). -/
inductive Event where
  | wait : Int → Event
deriving DecidableEq, Repr

/-- Embeds `sleep(seconds)` from `src/superfork/utils.py`: returns at once when
`seconds <= 0`, otherwise waits `seconds` seconds (one tick per loop
iteration of `track(range(seconds))`). We record the wait as one event. -/
def sleep (seconds : Int) : List Event :=
  if seconds ≤ 0 then [] else [Event.wait seconds]

/-- A `GithubException` (or its subclass `RateLimitExceededException`):
an identifying tag plus the optional `headers` mapping.  Header values that
the code reads are integers after `int(...)`, so we store them parsed. -/
structure GithubError where
  tag : Nat
  headers : Option (List (String × Int))
deriving DecidableEq, Repr

/-- Embeds `d.get(key, default)` on the parsed header mapping. -/
def headersGet (h : List (String × Int)) (key : String) (dflt : Int) : Int :=
  match h.find? (fun p => p.1 == key) with
  | some p => p.2
  | none => dflt

/-- Python truthiness of `e.headers`: `None` and the empty dict are falsy. -/
def headersTruthy : Option (List (String × Int)) → Bool
  | none => false
  | some h => !h.isEmpty

/-- The `retry_after` local of `graceful_calling`: `-1` unless `e.headers`
is truthy, in which case `int(e.headers.get("Retry-After", -1))`. -/
def retry_after_of (e : GithubError) : Int :=
  if headersTruthy e.headers then headersGet (e.headers.getD []) "Retry-After" (-1) else -1

/-- The `reset_unix_time` local of `graceful_calling`: `-1` unless
`e.headers` is truthy, in which case
`int(e.headers.get("X-RateLimit-Reset", -1))`. -/
def reset_of (e : GithubError) : Int :=
  if headersTruthy e.headers then headersGet (e.headers.getD []) "X-RateLimit-Reset" (-1) else -1

/-- The waits performed by the `except` block of `graceful_calling` after
the attempt with index `i` failed with `e` (current wall clock `now`):
`Retry-After` first, else wait until the `X-RateLimit-Reset` time, else
exponential backoff `2 ** (i + 4)`. -/
def backoff_events (e : GithubError) (i : Nat) (now : Int) : List Event :=
  let retry_after := retry_after_of e
  let reset_unix_time := reset_of e
  if retry_after > 0 then sleep retry_after
  else if reset_unix_time > 0 then sleep (reset_unix_time - now)
  else sleep ((2 : Int) ^ (i + 4))

/-- A Python exception, as far as `graceful_calling` distinguishes them:
the caught classes (`RateLimitExceededException`, `GithubException`) versus
everything else. -/
inductive Exn where
  | github : GithubError → Exn
  | other : Nat → Exn
deriving DecidableEq, Repr

/-- Outcome of one invocation of the wrapped zero-argument callable `fn`:
it returns a value or raises. -/
inductive Attempt (α : Type) where
  | success : α → Attempt α
  | failure : Exn → Attempt α
deriving DecidableEq, Repr

/-- How one run of the `graceful_calling` generator ends: it yields a value,
or an uncaught exception escapes, or the `for` loop exhausts `max_tries`
attempts and the generator returns without ever yielding (the
`contextlib.contextmanager` machinery then raises a `RuntimeError` in the
caller; no attempt's exception is re-raised). -/
inductive RunResult (α : Type) where
  | yielded : α → RunResult α
  | raised : Exn → RunResult α
  | exhausted : RunResult α
deriving DecidableEq, Repr

/-- One run of `graceful_calling`: terminal result, the waits performed, and
how many times `fn` was invoked. -/
structure GCRun (α : Type) where
  result : RunResult α
  events : List Event
  calls : Nat
deriving DecidableEq, Repr

/-- The `for i in range(max_tries)` loop of `graceful_calling`, entered at
attempt index `i` with `fuel` iterations remaining.  `fn j` is the outcome
of the `j`-th invocation of the wrapped callable. -/
def graceful_calling_loop {α : Type} (fn : Nat → Attempt α) (is_mutating : Int) (now : Int) :
    Nat → Nat → GCRun α
  | 0, _ => ⟨RunResult.exhausted, [], 0⟩
  | fuel + 1, i =>
    match fn i with
    | Attempt.success v =>
        ⟨RunResult.yielded v, if is_mutating ≠ 0 then sleep is_mutating else [], 1⟩
    | Attempt.failure (Exn.github e) =>
        let rest := graceful_calling_loop fn is_mutating now fuel (i + 1)
        ⟨rest.result, backoff_events e i now ++ rest.events, rest.calls + 1⟩
    | Attempt.failure (Exn.other ex) =>
        ⟨RunResult.raised (Exn.other ex), [], 1⟩

/-- Embeds `graceful_calling(g, fn, is_mutating, max_tries)` from
`src/superfork/utils.py`, as a function of the per-attempt outcomes. -/
def graceful_calling {α : Type} (fn : Nat → Attempt α) (is_mutating : Int)
    (max_tries : Nat) (now : Int) : GCRun α :=
  graceful_calling_loop fn is_mutating now max_tries 0

theorem graceful_calling_loop_calls_le {α : Type} (fn : Nat → Attempt α)
    (m now : Int) : ∀ fuel i, (graceful_calling_loop fn m now fuel i).calls ≤ fuel := by
  intro fuel
  induction fuel with
  | zero => intro i; simp [graceful_calling_loop]
  | succ n ih =>
    intro i
    cases h : fn i with
    | success v => simp [graceful_calling_loop, h]
    | failure e =>
      cases e with
      | github ge =>
        simp only [graceful_calling_loop, h]
        have := ih (i + 1)
        omega
      | other ex => simp [graceful_calling_loop, h]

theorem graceful_calling_loop_first_success {α : Type} (fn : Nat → Attempt α)
    (m now : Int) :
    ∀ j fuel i v, j < fuel →
      (∀ d, d < j → ∃ e, fn (i + d) = Attempt.failure (Exn.github e)) →
      fn (i + j) = Attempt.success v →
      (graceful_calling_loop fn m now fuel i).calls = j + 1 ∧
      (graceful_calling_loop fn m now fuel i).result = RunResult.yielded v := by
  intro j
  induction j with
  | zero =>
    intro fuel i v hj _ hsucc
    obtain ⟨f, rfl⟩ : ∃ f, fuel = f + 1 := ⟨fuel - 1, by omega⟩
    simp only [Nat.add_zero] at hsucc
    simp [graceful_calling_loop, hsucc]
  | succ k ih =>
    intro fuel i v hj hprev hsucc
    obtain ⟨f, rfl⟩ : ∃ f, fuel = f + 1 := ⟨fuel - 1, by omega⟩
    obtain ⟨e0, he0⟩ := hprev 0 (Nat.succ_pos k)
    simp only [Nat.add_zero] at he0
    have hrec := ih f (i + 1) v (by omega)
      (fun d hd => by
        obtain ⟨e, he⟩ := hprev (d + 1) (by omega)
        exact ⟨e, by rwa [show i + 1 + d = i + (d + 1) by omega]⟩)
      (by rwa [show i + 1 + k = i + (k + 1) by omega])
    simp only [graceful_calling_loop, he0]
    exact ⟨by rw [hrec.1], hrec.2⟩

/-- C1: `graceful_calling` invokes `fn` at most `max_tries` times; and if the
first `j` attempts raise recognized transient errors while attempt `j`
(within the bound) returns normally, then exactly `j + 1` invocations occur
and that attempt's value is the single yielded terminal outcome. -/
theorem graceful_calling_at_most_max_tries_and_stops_on_success {α : Type}
    (fn : Nat → Attempt α) (is_mutating : Int) (max_tries : Nat) (now : Int) :
    (graceful_calling fn is_mutating max_tries now).calls ≤ max_tries ∧
    (∀ j v, j < max_tries →
      (∀ d, d < j → ∃ e, fn d = Attempt.failure (Exn.github e)) →
      fn j = Attempt.success v →
      (graceful_calling fn is_mutating max_tries now).calls = j + 1 ∧
      (graceful_calling fn is_mutating max_tries now).result = RunResult.yielded v) := by
  constructor
  · exact graceful_calling_loop_calls_le fn is_mutating now max_tries 0
  · intro j v hj hprev hsucc
    have := graceful_calling_loop_first_success fn is_mutating now j max_tries 0 v hj
      (fun d hd => by simpa using hprev d hd) (by simpa using hsucc)
    exact this

/-- A wrapped call whose first attempt is rate-limited and whose second
attempt succeeds with the value `7`. -/
def fn_once_then_ok : Nat → Attempt Nat :=
  fun j => if j = 0 then Attempt.failure (Exn.github ⟨0, none⟩) else Attempt.success 7

/-- Witness for C1 at a concrete input: with three allowed tries and a single
transient failure before success, `fn` runs exactly twice and yields `7`. -/
theorem graceful_calling_at_most_max_tries_and_stops_on_success_witness :
    (graceful_calling fn_once_then_ok 0 3 0).calls = 2 ∧
    (graceful_calling fn_once_then_ok 0 3 0).result = RunResult.yielded 7 :=
  (graceful_calling_at_most_max_tries_and_stops_on_success fn_once_then_ok 0 3 0).2 1 7
    (by decide)
    (fun d hd => ⟨⟨0, none⟩, by
      have hd0 : d = 0 := by omega
      subst hd0; rfl⟩)
    (by decide)

theorem graceful_calling_loop_all_transient {α : Type} (fn : Nat → Attempt α)
    (m now : Int) :
    ∀ fuel i, (∀ d, d < fuel → ∃ e, fn (i + d) = Attempt.failure (Exn.github e)) →
      (graceful_calling_loop fn m now fuel i).result = RunResult.exhausted ∧
      (graceful_calling_loop fn m now fuel i).calls = fuel := by
  intro fuel
  induction fuel with
  | zero => intro i _; simp [graceful_calling_loop]
  | succ n ih =>
    intro i hall
    obtain ⟨e0, he0⟩ := hall 0 (Nat.succ_pos n)
    simp only [Nat.add_zero] at he0
    have hrec := ih (i + 1) (fun d hd => by
      obtain ⟨e, he⟩ := hall (d + 1) (by omega)
      exact ⟨e, by rwa [show i + 1 + d = i + (d + 1) by omega]⟩)
    simp only [graceful_calling_loop, he0]
    exact ⟨hrec.1, by rw [hrec.2]⟩

/-- C2 (amended): when every one of the `max_tries` invocations raises a
recognized transient error, `graceful_calling` exhausts the loop and ends
without yielding any value and without re-raising any exception — the last
transient failure is only printed and discarded.  (The surrounding
`contextlib.contextmanager` machinery then raises a generic `RuntimeError`
because the generator never yielded.) -/
theorem graceful_calling_all_transient_swallows {α : Type} (fn : Nat → Attempt α)
    (is_mutating : Int) (max_tries : Nat) (now : Int)
    (hall : ∀ d, d < max_tries → ∃ e, fn d = Attempt.failure (Exn.github e)) :
    (graceful_calling fn is_mutating max_tries now).result = RunResult.exhausted ∧
    (graceful_calling fn is_mutating max_tries now).calls = max_tries := by
  have := graceful_calling_loop_all_transient fn is_mutating now max_tries 0
    (fun d hd => by simpa using hall d hd)
  exact this

/-- A wrapped call all of whose attempts raise a `GithubException`; the
attempt with index `j` raises the error tagged `j` (no headers). -/
def fn_all_fail : Nat → Attempt Nat :=
  fun j => Attempt.failure (Exn.github ⟨j, none⟩)

/-- Witness for the amended C2 at a concrete input: three transient failures
in three tries leave the generator exhausted after exactly three calls. -/
theorem graceful_calling_all_transient_swallows_witness :
    (graceful_calling fn_all_fail 0 3 0).result = RunResult.exhausted ∧
    (graceful_calling fn_all_fail 0 3 0).calls = 3 :=
  graceful_calling_all_transient_swallows fn_all_fail 0 3 0
    (fun d _ => ⟨⟨d, none⟩, rfl⟩)

/-- Counterexample to C2 as stated: with `max_tries = 3` and every attempt
raising a recognized transient error (the last one tagged `2`), the run's
terminal result is `exhausted` — a constructor carrying no error — so the
last transient failure is neither returned nor re-raised to the caller,
contrary to the claim that it is surfaced as a terminal fatal failure. -/
theorem graceful_calling_c2_counterexample :
    (graceful_calling fn_all_fail 0 3 0).result = RunResult.exhausted ∧
    (graceful_calling fn_all_fail 0 3 0).result ≠
      RunResult.raised (Exn.github ⟨2, none⟩) := by
  decide

/-- C5 (first half): in `graceful_calling`, a failure carrying a positive
`Retry-After` value makes the backoff wait exactly that many seconds,
whatever the reset timestamp or the attempt index — and that backoff is
precisely what the loop performs between attempt `i` and attempt `i + 1`. -/
theorem retry_after_priority_graceful
    (e : GithubError) (i : Nat) (now : Int) (h : retry_after_of e > 0) :
    backoff_events e i now = [Event.wait (retry_after_of e)] := by
  simp only [backoff_events, sleep, if_pos h]
  rw [if_neg (by omega)]

theorem graceful_calling_loop_transient_step {α : Type} (fn : Nat → Attempt α)
    (m now : Int) (fuel i : Nat) (e : GithubError)
    (h : fn i = Attempt.failure (Exn.github e)) :
    (graceful_calling_loop fn m now (fuel + 1) i).events =
      backoff_events e i now ++ (graceful_calling_loop fn m now fuel (i + 1)).events := by
  simp [graceful_calling_loop, h]

/-- The rate-limit snapshot consumed by `maybe_sleep` in
`src/repo_fork/fork.py`: the core `remaining` count, the required
`x-ratelimit-reset` header, and `raw_headers.get("retry-after", -1)`
(already parsed to an integer; `-1` encodes an absent header). -/
structure RateLimitSnapshot where
  remaining : Int
  reset : Int
  retry_after : Int
deriving DecidableEq, Repr

/-- Embeds `maybe_sleep(g, action)` from `src/repo_fork/fork.py`: wait the
`retry-after` duration when positive; else, when fewer than 10 calls remain,
wait until the reset time; else pause 15 seconds after a fork. -/
def maybe_sleep (rl : RateLimitSnapshot) (now : Int) (action : Option String) :
    List Event :=
  let sleep_time := rl.reset - now
  if rl.retry_after > 0 then sleep rl.retry_after
  else if rl.remaining < 10 then sleep sleep_time
  else if action = some "forked" then sleep 15 else []

/-- C5: whenever a failed attempt carries an explicit positive `Retry-After`
value, the wait before the next attempt is exactly that many seconds, with
priority over the quota-reset timestamp and the attempt-index backoff —
both in `graceful_calling`'s except-block (whose backoff is exactly the wait
separating consecutive attempts) and in `maybe_sleep`. -/
theorem retry_after_waits_exactly_and_has_priority :
    (∀ (e : GithubError) (i : Nat) (now : Int), retry_after_of e > 0 →
      backoff_events e i now = [Event.wait (retry_after_of e)]) ∧
    (∀ {α : Type} (fn : Nat → Attempt α) (m now : Int) (fuel i : Nat) (e : GithubError),
      fn i = Attempt.failure (Exn.github e) →
      (graceful_calling_loop fn m now (fuel + 1) i).events =
        backoff_events e i now ++ (graceful_calling_loop fn m now fuel (i + 1)).events) ∧
    (∀ (rl : RateLimitSnapshot) (now : Int) (action : Option String),
      rl.retry_after > 0 →
      maybe_sleep rl now action = [Event.wait rl.retry_after]) := by
  refine ⟨retry_after_priority_graceful, ?_, ?_⟩
  · intro α fn m now fuel i e h
    exact graceful_calling_loop_transient_step fn m now fuel i e h
  · intro rl now action h
    simp only [maybe_sleep, sleep, if_pos h]
    rw [if_neg (by omega)]

/-- An error whose headers carry `Retry-After: 30` and a competing reset
timestamp, to exercise the priority of the explicit signal. -/
def err_retry_after_30 : GithubError :=
  ⟨0, some [("Retry-After", 30), ("X-RateLimit-Reset", 999999)]⟩

/-- Witness for C5 at concrete inputs: `Retry-After: 30` yields a 30-second
wait in both backoff sites, despite a competing reset timestamp and a
nonzero attempt index. -/
theorem retry_after_waits_exactly_and_has_priority_witness :
    backoff_events err_retry_after_30 2 0 = [Event.wait 30] ∧
    maybe_sleep ⟨3, 999999, 30⟩ 0 (some "forked") = [Event.wait 30] :=
  ⟨retry_after_waits_exactly_and_has_priority.1 err_retry_after_30 2 0 (by decide),
   retry_after_waits_exactly_and_has_priority.2.2 ⟨3, 999999, 30⟩ 0 (some "forked") (by decide)⟩

/-- C6: when a failed attempt with index `i` carries neither a positive
`Retry-After` value nor a positive rate-limit reset timestamp, the backoff
wait performed by `graceful_calling` before the next attempt (the
`backoff_events` that separate attempt `i` from attempt `i + 1` in the
loop) is exactly `2 ^ (i + 4)` seconds. -/
theorem exponential_backoff_when_no_signal :
    (∀ (e : GithubError) (i : Nat) (now : Int),
      retry_after_of e ≤ 0 → reset_of e ≤ 0 →
      backoff_events e i now = [Event.wait ((2 : Int) ^ (i + 4))]) ∧
    (∀ {α : Type} (fn : Nat → Attempt α) (m now : Int) (fuel i : Nat) (e : GithubError),
      fn i = Attempt.failure (Exn.github e) →
      (graceful_calling_loop fn m now (fuel + 1) i).events =
        backoff_events e i now ++ (graceful_calling_loop fn m now fuel (i + 1)).events) := by
  constructor
  · intro e i now hra hrs
    simp only [backoff_events, sleep]
    have hpow : (0 : Int) < 2 ^ (i + 4) := pow_pos (by norm_num) _
    rw [if_neg (by omega), if_neg (by omega), if_neg (by omega)]
  · intro α fn m now fuel i e h
    exact graceful_calling_loop_transient_step fn m now fuel i e h

/-- Witness for C6 at a concrete input: a header-less failure of the first
attempt (index 0) backs off exactly `2 ^ 4 = 16` seconds. -/
theorem exponential_backoff_when_no_signal_witness :
    backoff_events ⟨0, none⟩ 0 0 = [Event.wait 16] := by
  have := exponential_backoff_when_no_signal.1 ⟨0, none⟩ 0 0 (by decide) (by decide)
  simpa using this

/-- The attributes of a repository that `filter_repos` inspects (the Lean
keyword `private` forces renaming the `private` flag to `isPrivate`). -/
structure Repo where
  fork : Bool
  size : Int
  isPrivate : Bool
  name : String
deriving DecidableEq, Repr

/-- The per-repository body of the loop in `filter_repos`
(`src/superfork/fork.py`): the first matching `if`/`elif` yields a skip
reason with the repository, and the `else` yields `("keep", repo)`. -/
def filter_repo_label (include_private include_forks include_dot_github : Bool)
    (repo : Repo) : String × Repo :=
  if repo.fork && !include_forks then ("Skipping forked repository", repo)
  else if repo.size == 0 then ("Skipping empty repository", repo)
  else if repo.isPrivate && !include_private then ("Skipping private repository", repo)
  else if repo.name == ".github" && !include_dot_github then ("Skipping .github repository", repo)
  else ("keep", repo)

/-- Embeds `filter_repos(repos, include_private, include_forks, include_dot_github)`
from `src/superfork/fork.py`: the generator yields one labelled pair per
input repository, in order. -/
def filter_repos (repos : List Repo)
    (include_private : Bool := true) (include_forks : Bool := false)
    (include_dot_github : Bool := false) : List (String × Repo) :=
  repos.map (filter_repo_label include_private include_forks include_dot_github)

/-- C7: `filter_repos` emits exactly one labelled entry per repository; an
entry is kept (label `"keep"`) exactly when none of the four exclusion
conditions holds (fork and forks not included; zero size; private and
private not included; named `.github` and not included); and every excluded
repository is emitted with one of the four human-readable skip reasons,
paired with the repository itself rather than dropped. -/
theorem filter_repos_exclusion_policy (repos : List Repo)
    (include_private include_forks include_dot_github : Bool) :
    filter_repos repos include_private include_forks include_dot_github =
      repos.map (filter_repo_label include_private include_forks include_dot_github) ∧
    ∀ r : Repo,
      (filter_repo_label include_private include_forks include_dot_github r).2 = r ∧
      ((filter_repo_label include_private include_forks include_dot_github r).1 = "keep" ↔
        ¬((r.fork = true ∧ include_forks = false) ∨ r.size = 0 ∨
          (r.isPrivate = true ∧ include_private = false) ∨
          (r.name = ".github" ∧ include_dot_github = false))) ∧
      ((filter_repo_label include_private include_forks include_dot_github r).1 = "keep" ∨
        (filter_repo_label include_private include_forks include_dot_github r).1 ∈
          (["Skipping forked repository", "Skipping empty repository",
            "Skipping private repository", "Skipping .github repository"] : List String)) := by
  refine ⟨rfl, fun r => ?_⟩
  rcases r with ⟨fk, sz, pv, nm⟩
  cases fk <;> cases pv <;>
    cases include_forks <;> cases include_private <;> cases include_dot_github <;>
    by_cases h2 : sz = 0 <;> by_cases h4 : nm = ".github" <;>
    simp_all [filter_repo_label]

/-- An ordinary repository: not a fork, nonempty, public, not `.github`. -/
def repo_plain : Repo := ⟨false, 5, false, "widget"⟩

/-- Witness for C7 at a concrete input: an ordinary repository is kept by
`filter_repos` under the default flags. -/
theorem filter_repos_exclusion_policy_witness :
    filter_repos [repo_plain] true false false = [("keep", repo_plain)] := by
  have h := ((filter_repos_exclusion_policy [repo_plain] true false false).2 repo_plain).2.1
  have hk : (filter_repo_label true false false repo_plain).1 = "keep" :=
    h.mpr (by decide)
  have hs : (filter_repo_label true false false repo_plain).2 = repo_plain :=
    ((filter_repos_exclusion_policy [repo_plain] true false false).2 repo_plain).1
  calc filter_repos [repo_plain] true false false
      = [filter_repo_label true false false repo_plain] := rfl
    _ = [("keep", repo_plain)] := by
        rw [show filter_repo_label true false false repo_plain =
          ((filter_repo_label true false false repo_plain).1,
           (filter_repo_label true false false repo_plain).2) from rfl, hk, hs]

/-- Python `s.split(sep)` for a one-character separator, over the character
list: every occurrence of the separator splits, empty segments are kept, and
the empty string yields `[""]`. -/
def py_split_chars (sep : Char) : List Char → List String
  | [] => [""]
  | c :: rest =>
      let r := py_split_chars sep rest
      if c = sep then "" :: r
      else
        match r with
        | [] => [String.mk [c]]
        | s :: ss => String.mk (c :: s.data) :: ss

/-- Python `s.split(sep)` for a one-character separator such as `"/"`. -/
def py_split (s : String) (sep : Char) : List String :=
  py_split_chars sep s.data

/-- A remote or console interaction performed by `fork_or_sync`
(`src/superfork/fork.py`), in order of occurrence. -/
inductive REvent where
  | getRepo (nwo : String)
  | getOrg (org : String)
  | createFork (source : String) (owner : String)
  | mergeUpstream (dest : String)
  | warn (msg : String)
  | sleepUntilReset
deriving DecidableEq, Repr

/-- The mutating remote calls: fork creation and merge-upstream sync. -/
def is_mutating_event : REvent → Bool
  | REvent.createFork _ _ => true
  | REvent.mergeUpstream _ => true
  | _ => false

/-- Fork-creation calls only (`user.create_fork` / `org.create_fork`). -/
def is_fork_creation : REvent → Bool
  | REvent.createFork _ _ => true
  | _ => false

/-- The ways `fork_or_sync` can raise instead of returning a decision. -/
inductive PyError where
  | valueError
  | githubTokenNotFound
  | notAuthenticatedUser
  | repositoryNotFound (repo : String)
  | unknownObject (name : String)
  | raised (e : Exn)
deriving DecidableEq, Repr

instance {ε α : Type} [DecidableEq ε] [DecidableEq α] : DecidableEq (Except ε α) :=
  fun a b =>
    match a, b with
    | Except.ok x, Except.ok y =>
        decidable_of_iff (x = y) ⟨fun h => by rw [h], fun h => by cases h; rfl⟩
    | Except.error x, Except.error y =>
        decidable_of_iff (x = y) ⟨fun h => by rw [h], fun h => by cases h; rfl⟩
    | Except.ok _, Except.error _ => isFalse (fun h => by cases h)
    | Except.error _, Except.ok _ => isFalse (fun h => by cases h)

/-- The external world as `fork_or_sync` observes it: credential presence,
the authenticated actor (`none` models `get_authed_user` raising), the full
names of existing repositories (`get_repo` succeeds exactly on members),
the resolvable organizations, and the outcome of the `k`-th fork-creation
call and of the merge-upstream call. -/
structure ForkEnv where
  tokenPresent : Bool
  authedUser : Option String
  repos : List String
  orgs : List String
  forkResults : Nat → Except Exn String
  syncResult : Except Exn Unit

/-- The `to_user = parts[0]` computation of `fork_or_sync`. -/
def destination_owner (to_location : String) : String :=
  (py_split to_location '/').headD ""

/-- The destination location `fork_or_sync` actually uses for the existence
check: when `to_location` is a bare owner, `"/".join([to_user, from_name])`;
otherwise (after warning) the supplied `to_location`, unchanged. -/
def computed_destination (from_repo to_location : String) : String :=
  let from_name := (py_split from_repo '/').getD 1 ""
  let parts := py_split to_location '/'
  let to_user := parts.headD ""
  if parts.length = 1 then to_user ++ "/" ++ from_name else to_location

/-- Modelled from the spec: `sleep_until_reset` is imported by
`src/superfork/fork.py` from `superfork.utils`, but its definition is
absent from the sources; per the spec's Backoff Scheduler it blocks until
the quota-reset time.  We model it as one observable event. -/
def sleep_until_reset : List REvent := [REvent.sleepUntilReset]

/-- The `try: create_fork ... except Exception: warn; sleep_until_reset;
create_fork` blocks of `fork_or_sync`: one retry after any exception at
all, the second exception propagating uncaught. -/
def create_fork_with_retry (env : ForkEnv) (from_repo to_loc owner : String)
    (ev : List REvent) : Except PyError (String × String × Option String) × List REvent :=
  match env.forkResults 0 with
  | Except.ok fork =>
      (Except.ok ("forked", from_repo, some fork), ev ++ [REvent.createFork from_repo owner])
  | Except.error _ =>
      let ev2 := ev ++ [REvent.createFork from_repo owner,
        REvent.warn ("Failed to fork " ++ from_repo ++ " to " ++ to_loc)] ++
        sleep_until_reset
      match env.forkResults 1 with
      | Except.ok fork =>
          (Except.ok ("forked", from_repo, some fork), ev2 ++ [REvent.createFork from_repo owner])
      | Except.error e2 =>
          (Except.error (PyError.raised e2), ev2 ++ [REvent.createFork from_repo owner])

/-- Embeds `fork_or_sync(from_repo, to_location, syncing, dry_run, branch)` from
`src/superfork/fork.py`, returning either the raised error or the decision
tuple (kind, source repository, destination repository when any), together
with the trace of interactions performed. -/
def fork_or_sync (env : ForkEnv) (from_repo to_location : String)
    (syncing dry_run : Bool) : Except PyError (String × String × Option String) × List REvent :=
  match py_split from_repo '/' with
  | [_from_user, from_name] =>
    let parts := py_split to_location '/'
    let to_user := parts.headD ""
    let to_loc := if parts.length = 1 then to_user ++ "/" ++ from_name else to_location
    let warn_evs : List REvent :=
      if parts.length = 1 then [] else [REvent.warn "igorning destination repository name"]
    if env.tokenPresent = false then (Except.error PyError.githubTokenNotFound, warn_evs)
    else
      match env.authedUser with
      | none => (Except.error PyError.notAuthenticatedUser, warn_evs)
      | some user_name =>
        let ev1 := warn_evs ++ [REvent.getRepo from_repo]
        if from_repo ∈ env.repos then
          let ev2 := ev1 ++ [REvent.getRepo to_loc]
          if to_loc ∈ env.repos then
            if dry_run then (Except.ok ("already exists (dry-run)", from_repo, some to_loc), ev2)
            else if syncing then
              match env.syncResult with
              | Except.ok _ =>
                  (Except.ok ("synced", from_repo, some to_loc), ev2 ++ [REvent.mergeUpstream to_loc])
              | Except.error e =>
                  (Except.error (PyError.raised e), ev2 ++ [REvent.mergeUpstream to_loc])
            else (Except.ok ("exists", from_repo, some to_loc), ev2)
          else
            if dry_run then (Except.ok ("would be forked (dry-run)", from_repo, none), ev2)
            else if to_user = user_name then
              create_fork_with_retry env from_repo to_loc to_user ev2
            else
              let ev3 := ev2 ++ [REvent.getOrg to_user]
              if to_user ∈ env.orgs then create_fork_with_retry env from_repo to_loc to_user ev3
              else (Except.error (PyError.unknownObject to_user), ev3)
        else (Except.error (PyError.repositoryNotFound from_repo), ev1)
  | _ => (Except.error PyError.valueError, [])

/-- C10: when `from_repo` does not split into exactly two segments on `/`,
the tuple unpacking `(from_user, from_name) = from_repo.split("/")` raises
`ValueError` at once, before any remote interaction: the trace is empty. -/
theorem fork_or_sync_requires_single_slash (env : ForkEnv) (fr to_location : String)
    (syncing dry_run : Bool) (h : (py_split fr '/').length ≠ 2) :
    fork_or_sync env fr to_location syncing dry_run = (Except.error PyError.valueError, []) := by
  rcases hs : py_split fr '/' with _ | ⟨a, _ | ⟨b, _ | ⟨c, tl⟩⟩⟩
  · simp [fork_or_sync, hs]
  · simp [fork_or_sync, hs]
  · rw [hs] at h; simp at h
  · simp [fork_or_sync, hs]

/-- Witness for C10 at a concrete input: a bare account name (`"acme"`, no
slash) makes `fork_or_sync` raise `ValueError` with no remote call made. -/
theorem fork_or_sync_requires_single_slash_witness :
    fork_or_sync ⟨true, some "bob", [], [], fun _ => Except.error (Exn.other 0), Except.ok ()⟩
      "acme" "bob" true true = (Except.error PyError.valueError, []) :=
  fork_or_sync_requires_single_slash _ "acme" "bob" true true (by decide)

/-- Remote state for the C4 counterexample: the source `acme/widget` exists,
and a repository already sits at the supplied destination `bob/gadget`,
while `bob/widget` (the destination the claim says is effective) does not
exist. -/
def env_c4 : ForkEnv :=
  ⟨true, some "bob", ["acme/widget", "bob/gadget"], [],
    fun _ => Except.error (Exn.other 0), Except.ok ()⟩

/-- C4 is violated by the code: when `to_location` supplies a name segment
(`"bob/gadget"`), the computed destination is the supplied `"bob/gadget"`,
not `"bob/widget"` — the existence check runs against the supplied name even
though the code warns that the name is ignored, and `fork_or_sync` answers
`exists` for a repository at `bob/gadget` although `bob/widget` is absent.
The bare-owner half of the claim does hold (`"bob"` becomes
`"bob/widget"`). -/
theorem fork_or_sync_uses_supplied_destination_name :
    computed_destination "acme/widget" "bob/gadget" = "bob/gadget" ∧
    "bob/gadget" ≠ "bob/widget" ∧
    (fork_or_sync env_c4 "acme/widget" "bob/gadget" false false).1 =
      Except.ok ("exists", "acme/widget", some "bob/gadget") ∧
    computed_destination "acme/widget" "bob" = "bob/widget" := by
  decide

/-- C3: under `dry_run`, `fork_or_sync` performs no mutating remote call
(neither fork creation nor merge-upstream appears in the trace), and any
returned decision is one of the two dry-run decisions, chosen by whether a
repository exists at the computed destination. -/
theorem fork_or_sync_dry_run_safe (env : ForkEnv) (fr to_location : String)
    (syncing : Bool) :
    ((fork_or_sync env fr to_location syncing true).2.filter is_mutating_event) = [] ∧
    (∀ d f t, (fork_or_sync env fr to_location syncing true).1 = Except.ok (d, f, t) →
      (computed_destination fr to_location ∈ env.repos → d = "already exists (dry-run)") ∧
      (computed_destination fr to_location ∉ env.repos → d = "would be forked (dry-run)")) := by
  rcases hs : py_split fr '/' with _ | ⟨a, _ | ⟨b, _ | ⟨c, tl⟩⟩⟩
  · exact ⟨by simp [fork_or_sync, hs], fun d f t h => by simp [fork_or_sync, hs] at h⟩
  · exact ⟨by simp [fork_or_sync, hs], fun d f t h => by simp [fork_or_sync, hs] at h⟩
  · have hcd : computed_destination fr to_location =
        (if (py_split to_location '/').length = 1
          then (py_split to_location '/').headD "" ++ "/" ++ b else to_location) := by
      simp [computed_destination, hs]
    by_cases hlen : (py_split to_location '/').length = 1 <;>
      by_cases htok : env.tokenPresent = false <;>
      rcases hau : env.authedUser with _ | user <;>
      by_cases hfr : fr ∈ env.repos <;>
      by_cases hto : (if (py_split to_location '/').length = 1
        then (py_split to_location '/').headD "" ++ "/" ++ b else to_location) ∈ env.repos <;>
      refine ⟨?_, fun d f t h => ?_⟩ <;>
      simp_all [fork_or_sync, is_mutating_event]
  · exact ⟨by simp [fork_or_sync, hs], fun d f t h => by simp [fork_or_sync, hs] at h⟩

/-- Remote state in which the source `acme/widget` and the destination
`bob/widget` both already exist for actor `bob`. -/
def env_dest_exists : ForkEnv :=
  ⟨true, some "bob", ["acme/widget", "bob/widget"], [],
    fun _ => Except.error (Exn.other 0), Except.ok ()⟩

/-- Witness for C3 at a concrete input: a dry run over an existing
destination mutates nothing and reports the dry-run `already exists`
decision. -/
theorem fork_or_sync_dry_run_safe_witness :
    ((fork_or_sync env_dest_exists "acme/widget" "bob" false true).2.filter
      is_mutating_event) = [] ∧
    ("already exists (dry-run)" : String) = "already exists (dry-run)" := by
  have h := fork_or_sync_dry_run_safe env_dest_exists "acme/widget" "bob" false
  exact ⟨h.1,
    (h.2 "already exists (dry-run)" "acme/widget" (some "bob/widget") (by decide)).1
      (by decide)⟩

/-- C8: when a repository already exists at the computed destination and
both `syncing` and `dry_run` are false, `fork_or_sync` returns the decision
`exists` and its trace contains no mutating remote call. -/
theorem fork_or_sync_exists_no_mutation (env : ForkEnv)
    (fr to_location u n actor : String)
    (hs : py_split fr '/' = [u, n]) (htok : env.tokenPresent = true)
    (hau : env.authedUser = some actor) (hfr : fr ∈ env.repos)
    (hto : computed_destination fr to_location ∈ env.repos) :
    (fork_or_sync env fr to_location false false).1 =
      Except.ok ("exists", fr, some (computed_destination fr to_location)) ∧
    ((fork_or_sync env fr to_location false false).2.filter is_mutating_event) = [] := by
  have hcd : computed_destination fr to_location =
      (if (py_split to_location '/').length = 1
        then (py_split to_location '/').headD "" ++ "/" ++ n else to_location) := by
    simp [computed_destination, hs]
  by_cases hlen : (py_split to_location '/').length = 1 <;>
    simp_all [fork_or_sync, is_mutating_event]

/-- Witness for C8 at a concrete input: with `bob/widget` already present,
syncing off and dry-run off, the decision is `exists` and nothing mutates. -/
theorem fork_or_sync_exists_no_mutation_witness :
    (fork_or_sync env_dest_exists "acme/widget" "bob" false false).1 =
      Except.ok ("exists", "acme/widget",
        some (computed_destination "acme/widget" "bob")) ∧
    ((fork_or_sync env_dest_exists "acme/widget" "bob" false false).2.filter
      is_mutating_event) = [] :=
  fork_or_sync_exists_no_mutation env_dest_exists "acme/widget" "bob"
    "acme" "widget" "bob" (by decide) rfl rfl (by decide) (by decide)

theorem create_fork_with_retry_first_ok (env : ForkEnv) (fr tl ow : String)
    (ev : List REvent) (r : String) (h0 : env.forkResults 0 = Except.ok r) :
    create_fork_with_retry env fr tl ow ev =
      (Except.ok ("forked", fr, some r), ev ++ [REvent.createFork fr ow]) := by
  simp [create_fork_with_retry, h0]

/-- When `to_user == user_name` or the owner is a resolvable organization,
the no-destination path of `fork_or_sync` is the fork-with-one-retry block,
entered with a trace that contains no fork-creation call yet. -/
theorem fork_or_sync_fork_branch (env : ForkEnv)
    (fr to_location u n actor : String) (syncing : Bool)
    (hs : py_split fr '/' = [u, n]) (htok : env.tokenPresent = true)
    (hau : env.authedUser = some actor) (hfr : fr ∈ env.repos)
    (hto : computed_destination fr to_location ∉ env.repos)
    (howner : destination_owner to_location = actor ∨
      (destination_owner to_location ≠ actor ∧ destination_owner to_location ∈ env.orgs)) :
    ∃ ev : List REvent, ev.filter is_fork_creation = [] ∧
      fork_or_sync env fr to_location syncing false =
        create_fork_with_retry env fr (computed_destination fr to_location)
          (destination_owner to_location) ev := by
  have hcd : computed_destination fr to_location =
      (if (py_split to_location '/').length = 1
        then (py_split to_location '/').headD "" ++ "/" ++ n else to_location) := by
    simp [computed_destination, hs]
  by_cases hlen : (py_split to_location '/').length = 1
  · rcases howner with h | ⟨hne, horg⟩
    · refine ⟨[REvent.getRepo fr,
        REvent.getRepo ((py_split to_location '/').headD "" ++ "/" ++ n)],
        by simp [List.filter, is_fork_creation], ?_⟩
      simp_all [fork_or_sync, destination_owner]
    · refine ⟨[REvent.getRepo fr,
        REvent.getRepo ((py_split to_location '/').headD "" ++ "/" ++ n),
        REvent.getOrg ((py_split to_location '/').headD "")],
        by simp [List.filter, is_fork_creation], ?_⟩
      simp_all [fork_or_sync, destination_owner]
  · rcases howner with h | ⟨hne, horg⟩
    · refine ⟨[REvent.warn "igorning destination repository name",
        REvent.getRepo fr, REvent.getRepo to_location],
        by simp [List.filter, is_fork_creation], ?_⟩
      simp_all [fork_or_sync, destination_owner]
    · refine ⟨[REvent.warn "igorning destination repository name",
        REvent.getRepo fr, REvent.getRepo to_location,
        REvent.getOrg ((py_split to_location '/').headD "")],
        by simp [List.filter, is_fork_creation], ?_⟩
      simp_all [fork_or_sync, destination_owner]

/-- C9: with no repository at the computed destination and `dry_run` false,
`fork_or_sync` invokes fork creation directly; a first-attempt exception of
any kind leads to exactly one retry after a warning and a sleep until the
rate-limit reset, and a second-attempt exception propagates to the caller. -/
theorem fork_or_sync_fork_retry_once (env : ForkEnv)
    (fr to_location u n actor : String) (syncing : Bool)
    (hs : py_split fr '/' = [u, n]) (htok : env.tokenPresent = true)
    (hau : env.authedUser = some actor) (hfr : fr ∈ env.repos)
    (hto : computed_destination fr to_location ∉ env.repos)
    (howner : destination_owner to_location = actor ∨
      (destination_owner to_location ≠ actor ∧ destination_owner to_location ∈ env.orgs)) :
    (∀ r, env.forkResults 0 = Except.ok r →
      (fork_or_sync env fr to_location syncing false).1 =
        Except.ok ("forked", fr, some r) ∧
      ((fork_or_sync env fr to_location syncing false).2.filter is_fork_creation).length = 1) ∧
    (∀ e, env.forkResults 0 = Except.error e →
      ((fork_or_sync env fr to_location syncing false).2.filter is_fork_creation).length = 2 ∧
      REvent.sleepUntilReset ∈ (fork_or_sync env fr to_location syncing false).2 ∧
      (∀ r, env.forkResults 1 = Except.ok r →
        (fork_or_sync env fr to_location syncing false).1 =
          Except.ok ("forked", fr, some r)) ∧
      (∀ e2, env.forkResults 1 = Except.error e2 →
        (fork_or_sync env fr to_location syncing false).1 =
          Except.error (PyError.raised e2))) := by
  obtain ⟨ev, hev, heq⟩ := fork_or_sync_fork_branch env fr to_location u n actor syncing
    hs htok hau hfr hto howner
  constructor
  · intro r h0
    rw [heq, create_fork_with_retry_first_ok env fr _ _ ev r h0]
    exact ⟨rfl, by simp [List.filter_append, hev, List.filter, is_fork_creation]⟩
  · intro e h0
    rcases h1 : env.forkResults 1 with r1 | e2 <;>
      refine ⟨?_, ?_, fun r hr => ?_, fun e2x hx => ?_⟩ <;>
      rw [heq] <;>
      simp_all [create_fork_with_retry, sleep_until_reset, is_fork_creation,
        List.filter_append, List.filter]

/-- Remote state for the C9 witness: the destination is absent and the first
fork-creation call raises (exception tag 7) while the second succeeds. -/
def env_fork_retry : ForkEnv :=
  ⟨true, some "bob", ["acme/widget"], [],
    fun k => if k = 0 then Except.error (Exn.other 7) else Except.ok "bob/widget",
    Except.ok ()⟩

/-- Witness for C9 at a concrete input: after a failing first attempt, the
trace shows exactly two fork-creation calls with a reset-sleep between
them, and the second attempt's fork is returned. -/
theorem fork_or_sync_fork_retry_once_witness :
    ((fork_or_sync env_fork_retry "acme/widget" "bob" false false).2.filter
      is_fork_creation).length = 2 ∧
    REvent.sleepUntilReset ∈ (fork_or_sync env_fork_retry "acme/widget" "bob" false false).2 ∧
    (fork_or_sync env_fork_retry "acme/widget" "bob" false false).1 =
      Except.ok ("forked", "acme/widget", some "bob/widget") := by
  have h := (fork_or_sync_fork_retry_once env_fork_retry "acme/widget" "bob"
    "acme" "widget" "bob" false (by decide) rfl rfl (by decide) (by decide)
    (Or.inl (by decide))).2 (Exn.other 7) (by decide)
  exact ⟨h.1, h.2.1, h.2.2.1 "bob/widget" (by decide)⟩

end Superfork
